import Mathlib

/-!
# Verification of the applink Local Authorization Callback Engine

Shallow embedding of the OAuth callback engine of the applink CLI
(package `internal/auth`, the callback-server variants, and the
`certs` package), together with theorems settling the claims about it.

Conventions of the embedding:
* Go `url.Values` (a multimap whose `Get` returns the first value or the
  empty string) is modelled as an association list `Values`.
* Channel traffic is serialized: the events a handler pushes onto the
  code/error channels form a list, and the orchestrator's single
  `select` receive is the head of that list (the 5-minute timer fires
  exactly when no event ever arrives).
* `json.Unmarshal` into `map[string]interface{}` is abstracted: the
  parse result is an input (`none` = unmarshal error, `some m` = the
  decoded top-level object).  Go JSON numbers (float64) are modelled as
  rationals; `time.Time` is modelled as a rational timestamp with `0`
  the zero time.
* The filesystem seen by the `certs` package is a map from paths to
  file contents; a successful `os.Stat` is modelled as presence.
-/

namespace Applink

/-- `config.Service` (src/internal/config/services.go): the fields the
auth package reads.  `authURLQuery` is the query part of the parsed
authorization URL (`url.Parse` is abstracted: the engine receives the
parsed form) and `authURLBase` its non-query part. -/
structure Service where
  id : String
  authURLBase : String
  authURLQuery : List (String × String)
  tokenURL : String
  scopes : List String
deriving Repr, DecidableEq

/-- `config.ClientCredentials` (src/unnamed/part_009). -/
structure ClientCredentials where
  clientID : String
  clientSecret : String
deriving Repr, DecidableEq

/-- `storage.Token` (src/internal/storage/keyring.go).  Go zero values
are the defaults; `expiresAt` models `time.Time` with `0` = zero time. -/
structure Token where
  accessToken : String := ""
  refreshToken : String := ""
  tokenType : String := ""
  expiresAt : Rat := 0
  scope : String := ""
  teamID : String := ""
  user : String := ""
deriving Repr, DecidableEq

/-- Go `url.Values`: an association list of query parameters, in query
order; duplicate keys keep all occurrences. -/
def Values : Type := List (String × String)

instance : DecidableEq Values := by
  unfold Values
  infer_instance

/-- `url.Values.Get`: first value associated with the key, or `""` when
the key is absent. -/
def Values.get (q : Values) (key : String) : String :=
  match List.find? (fun p => p.1 == key) q with
  | some p => p.2
  | none => ""

/-- `url.Values.Set`: replaces any existing values for the key with the
single given value.  (Go stores a map; only the key-to-value mapping is
observable through `Get`, which is all the claims use.) -/
def Values.set (q : Values) (key value : String) : Values :=
  (key, value) :: List.filter (fun p => p.1 ≠ key) q

/-- The tagged outcome of one inbound request to `/callback`, one
constructor per branch of the handler in
src/unnamed/part_001 lines 21-56 / src/unnamed/part_002 lines 12-47. -/
inductive CallbackOutcome where
  | Code (value : String)
  | ProviderError (code description : String)
  | StateMismatch
  | MissingCode
deriving Repr, DecidableEq

/-- The `/callback` handler of `startCallbackServer`
(src/unnamed/part_002 lines 12-47; the handler in src/unnamed/part_001
lines 21-56 is textually identical): check `error`, then `state`, then
`code`, and emit the outcome of the first branch that fires. -/
def handleCallback (expectedState : String) (query : Values) : CallbackOutcome :=
  let errParam := query.get "error"
  if errParam ≠ "" then
    .ProviderError errParam (query.get "error_description")
  else
    let state := query.get "state"
    if state ≠ expectedState then
      .StateMismatch
    else
      let code := query.get "code"
      if code = "" then
        .MissingCode
      else
        .Code code

/-- HTTP status the handler writes for each branch: 400 on the three
failure branches (`WriteHeader(http.StatusBadRequest)`), 200 (implicit
`WriteHeader`) on success. -/
def responseStatus : CallbackOutcome → Nat
  | .Code _ => 200
  | _ => 400

/-- One event on the code channel or the error channel. -/
inductive ChanEvent where
  | codeEv (code : String)
  | errEv (msg : String)
deriving Repr, DecidableEq

/-- The channel event each handler branch sends: `codeChan <- code` on
success, `errChan <- fmt.Errorf(...)` with the messages of
src/unnamed/part_002 lines 19, 29 and 39 otherwise. -/
def outcomeEvent : CallbackOutcome → ChanEvent
  | .Code c => .codeEv c
  | .ProviderError e d => .errEv (e ++ ": " ++ d)
  | .StateMismatch => .errEv "state mismatch: possible CSRF attack"
  | .MissingCode => .errEv "no authorization code in callback"

/-- The events the handler pushes for a sequence of inbound requests to
the callback path, in arrival order (channel traffic serialized). -/
def requestEvents (expectedState : String) (reqs : List Values) : List ChanEvent :=
  reqs.map (fun q => outcomeEvent (handleCallback expectedState q))

/-- Result of the orchestrator's `select` in `DoOAuthFlow`
(src/internal/auth/oauth.go lines 53-64): the first channel event wins,
and the 5-minute timer fires exactly when no event ever arrives. -/
inductive WaitResult where
  | gotCode (code : String)
  | gotErr (msg : String)
  | timedOut
deriving Repr, DecidableEq

/-- The single `select` receive of `DoOAuthFlow`: the first available
event, or the timer when there is none. -/
def waitForCallback (events : List ChanEvent) : WaitResult :=
  match events with
  | [] => .timedOut
  | .codeEv c :: _ => .gotCode c
  | .errEv m :: _ => .gotErr m

/-- The channel events `DoOAuthFlow` ever receives: it performs exactly
one `select` over the two capacity-1 channels and then returns, so it
consumes the first available event and nothing after it. -/
def consumedEvents (events : List ChanEvent) : List ChanEvent :=
  match events with
  | [] => []
  | e :: _ => [e]

/-- Outcome of one run of the waiting part of `DoOAuthFlow`
(src/internal/auth/oauth.go lines 53-74): the flow's result together
with whether `shutdownServer` was invoked. -/
structure WaitStep where
  result : Except String Token
  serverShutdown : Bool
deriving Repr

/-- The waiting part of `DoOAuthFlow` (src/internal/auth/oauth.go lines
53-74): one `select` over the code channel, the error channel and the
5-minute timer; on a code, shut the server down (line 66) and exchange
the code (the token exchange is abstracted as `exchange`); on an error,
shut down and return it (lines 58-60); on the timer, shut down and
return the timed-out error (lines 61-63). -/
def doOAuthFlowWait (events : List ChanEvent)
    (exchange : String → Except String Token) : WaitStep :=
  match waitForCallback events with
  | .gotCode code =>
      { result :=
          match exchange code with
          | .ok t => .ok t
          | .error e => .error ("failed to exchange code: " ++ e),
        serverShutdown := true }
  | .gotErr msg => { result := .error msg, serverShutdown := true }
  | .timedOut =>
      { result := .error "authentication timed out", serverShutdown := true }

/-- What the TLS variant of `startCallbackServer` (src/unnamed/part_001
lines 17-81) hands back to `DoOAuthFlow`: the returned server value
(`none` models a nil `*http.Server`) and the events it pushed onto the
error channel before returning.  When certificate generation fails
(lines 58-63) it sends the wrapped error and returns nil; otherwise it
returns the server. -/
structure TLSStart where
  server : Option Unit
  preEmitted : List ChanEvent
deriving Repr, DecidableEq

/-- The TLS `startCallbackServer` of src/unnamed/part_001, with the
self-signed certificate generation abstracted as its result. -/
def startCallbackServerTLS (certGen : Except String Unit) : TLSStart :=
  match certGen with
  | .error e =>
      { server := none,
        preEmitted := [.errEv ("failed to generate TLS certificate: " ++ e)] }
  | .ok _ => { server := some (), preEmitted := [] }

/-- The argument `DoOAuthFlow` (src/unnamed/part_002 lines 209-222)
passes to `shutdownServer` when the callback server is the TLS variant
of src/unnamed/part_001: every `select` branch invokes
`shutdownServer(server)` on the returned value.  `some a` means
`shutdownServer` was invoked with server `a`; `a = none` models a nil
`*http.Server`. -/
def tlsFlowShutdownServerArg (certGen : Except String Unit)
    (laterEvents : List ChanEvent) : Option (Option Unit) :=
  let started := startCallbackServerTLS certGen
  match waitForCallback (started.preEmitted ++ laterEvents) with
  | .gotCode _ => some started.server
  | .gotErr _ => some started.server
  | .timedOut => some started.server

/-- A JSON value as decoded by Go `encoding/json` into a dynamic map:
null, booleans, numbers (float64, modelled as rationals), strings,
arrays and objects. -/
inductive Json where
  | null
  | bool (b : Bool)
  | num (x : Rat)
  | str (s : String)
  | arr (elems : List Json)
  | obj (fields : List (String × Json))

/-- Lookup in a decoded JSON object (Go map indexing: `rawResp[key]`;
`none` when the key is absent). -/
def jLookup (fields : List (String × Json)) (key : String) : Option Json :=
  (List.find? (fun p => p.1 == key) fields).map (fun p => p.2)

/-- Go type assertion `.(string)` in its two-result form. -/
def jAsString : Option Json → Option String
  | some (.str s) => some s
  | _ => none

/-- Go type assertion `.(bool)` in its two-result form. -/
def jAsBool : Option Json → Option Bool
  | some (.bool b) => some b
  | _ => none

/-- Go type assertion `.(float64)` in its two-result form. -/
def jAsNum : Option Json → Option Rat
  | some (.num x) => some x
  | _ => none

/-- Go type assertion `.(map[string]interface)` in its two-result form. -/
def jAsObj : Option Json → Option (List (String × Json))
  | some (.obj fields) => some fields
  | _ => none

/-- Go `v, _ = x.(string)`: the zero value `""` on assertion failure. -/
def jStringD (j : Option Json) : String := (jAsString j).getD ""

/-- The token-building part of `parseTokenResponse`
(src/internal/auth/oauth.go lines 197-224), switching on the service:
slack checks the `ok` flag (error exactly when it is present, boolean
and false) and reads `authed_user` and `team`; every other service
reads the flat fields and `expires_in` (expiry set to `now` plus the
declared lifetime only when it is positive). -/
def extractToken (service : Service) (m : List (String × Json)) (now : Rat) :
    Except String Token :=
  if service.id = "slack" then
    match jAsBool (jLookup m "ok") with
    | some false => .error ("slack auth failed: " ++ jStringD (jLookup m "error"))
    | _ =>
      let token : Token := {}
      let token : Token :=
        match jAsObj (jLookup m "authed_user") with
        | some authedUser =>
            { token with
              accessToken := jStringD (jLookup authedUser "access_token"),
              scope := jStringD (jLookup authedUser "scope") }
        | none => token
      let token : Token :=
        match jAsObj (jLookup m "team") with
        | some team => { token with teamID := jStringD (jLookup team "id") }
        | none => token
      .ok token
  else
    let token : Token :=
      { accessToken := jStringD (jLookup m "access_token"),
        refreshToken := jStringD (jLookup m "refresh_token"),
        tokenType := jStringD (jLookup m "token_type"),
        scope := jStringD (jLookup m "scope") }
    let token : Token :=
      match jAsNum (jLookup m "expires_in") with
      | some expiresIn =>
          if expiresIn > 0 then { token with expiresAt := now + expiresIn }
          else token
      | none => token
    .ok token

/-- `parseTokenResponse` (src/internal/auth/oauth.go lines 191-231):
`rawResp` is the result of `json.Unmarshal` on `body` (`none` =
unmarshal error); after the per-service extraction, a token with an
empty access token is rejected with an error carrying the raw body. -/
def parseTokenResponse (service : Service) (body : String)
    (rawResp : Option (List (String × Json))) (now : Rat) : Except String Token :=
  match rawResp with
  | none => .error "failed to parse token response"
  | some m =>
    match extractToken service m now with
    | .error e => .error e
    | .ok token =>
      if token.accessToken = "" then
        .error ("no access token in response: " ++ body)
      else
        .ok token

/-- `sub` occurs verbatim inside `msg`. -/
def containsSub (msg sub : String) : Prop :=
  ∃ pre post, msg = pre ++ sub ++ post

/-- The response-handling tail of `exchangeCode`
(src/internal/auth/oauth.go lines 183-188): a non-200 status is a hard
failure carrying the response body verbatim; a 200 response is parsed
per service. -/
def handleExchangeResponse (service : Service) (status : Nat) (body : String)
    (rawResp : Option (List (String × Json))) (now : Rat) : Except String Token :=
  if status ≠ 200 then
    .error ("token exchange failed: " ++ body)
  else
    parseTokenResponse service body rawResp now

/-- `serviceRequiresTLS` (src/internal/auth/oauth.go lines 78-87): only
slack mandates HTTPS for the loopback redirect. -/
def serviceRequiresTLS (service : Service) : Bool :=
  service.id == "slack"

/-- A parsed URL: its non-query part and its query parameters (the
`RawQuery = q.Encode(); u.String()` serialization is abstracted — the
claims interrogate the query mapping). -/
structure URL where
  base : String
  query : Values

/-- `buildAuthURL` (src/internal/auth/oauth.go lines 97-125): on the
parsed authorization URL, set `client_id`, `redirect_uri` (loopback
with the scheme picked by `useTLS`), `response_type=code` and `state`;
when the service has scopes, slack gets `user_scope` comma-joined and
every other service gets `scope` space-joined. -/
def buildAuthURL (service : Service) (clientID : String) (port : Nat)
    (state : String) (useTLS : Bool) : URL :=
  let scheme := if useTLS then "https" else "http"
  let q : Values := service.authURLQuery
  let q := q.set "client_id" clientID
  let q := q.set "redirect_uri"
    (scheme ++ "://localhost:" ++ toString port ++ "/callback")
  let q := q.set "response_type" "code"
  let q := q.set "state" state
  let q :=
    if service.scopes.length > 0 then
      if service.id = "slack" then
        q.set "user_scope" (String.intercalate "," service.scopes)
      else
        q.set "scope" (String.intercalate " " service.scopes)
    else q
  { base := service.authURLBase, query := q }

/-- The standard base64 alphabet (RFC 4648), as used by Go
`base64.StdEncoding`. -/
def base64Alphabet : List Char :=
  "ABCDEFGHIJKLMNOPQRSTUVWXYZabcdefghijklmnopqrstuvwxyz0123456789+/".toList

/-- The base64 digit for a 6-bit group. -/
def base64Digit (n : Nat) : Char :=
  base64Alphabet.getD n 'A'

/-- `base64.StdEncoding` over a byte list, 3 bytes to 4 digits, with
`=` padding. -/
def base64EncodeBytes : List Nat → List Char
  | [] => []
  | [b1] =>
      [base64Digit (b1 / 4), base64Digit (b1 % 4 * 16), '=', '=']
  | [b1, b2] =>
      [base64Digit (b1 / 4), base64Digit (b1 % 4 * 16 + b2 / 16),
       base64Digit (b2 % 16 * 4), '=']
  | b1 :: b2 :: b3 :: rest =>
      base64Digit (b1 / 4) :: base64Digit (b1 % 4 * 16 + b2 / 16) ::
        base64Digit (b2 % 16 * 4 + b3 / 64) :: base64Digit (b3 % 64) ::
        base64EncodeBytes rest

/-- Go `[]byte(s)`: the UTF-8 bytes of a string. -/
def stringBytes (s : String) : List Nat :=
  s.toUTF8.toList.map (fun b => b.toNat)

/-- `base64.StdEncoding.EncodeToString([]byte(s))`. -/
def base64StdEncode (s : String) : String :=
  String.mk (base64EncodeBytes (stringBytes s))

/-- The outbound token-exchange request `exchangeCode` builds
(src/internal/auth/oauth.go lines 127-169): target URL, form body (the
`url.Values` encoded into the request at `NewRequest` time), the
optional `Authorization` header and the `Content-Type` header. -/
structure TokenRequest where
  url : String
  body : Values
  authorization : Option String
  contentType : String

/-- The request-construction part of `exchangeCode`
(src/internal/auth/oauth.go lines 127-169), switching on the service:
notion sets HTTP Basic over `clientID:clientSecret` and leaves the
credentials out of the body; slack and every other service put
`client_id` and `client_secret` in the body and set no Authorization
header. -/
def buildTokenRequest (service : Service) (creds : ClientCredentials)
    (code : String) (port : Nat) (useTLS : Bool) : TokenRequest :=
  let scheme := if useTLS then "https" else "http"
  let data : Values := []
  let data := data.set "grant_type" "authorization_code"
  let data := data.set "code" code
  let data := data.set "redirect_uri"
    (scheme ++ "://localhost:" ++ toString port ++ "/callback")
  if service.id = "notion" then
    { url := service.tokenURL,
      body := data,
      authorization := some ("Basic " ++
        base64StdEncode (creds.clientID ++ ":" ++ creds.clientSecret)),
      contentType := "application/x-www-form-urlencoded" }
  else if service.id = "slack" then
    let data := data.set "client_id" creds.clientID
    let data := data.set "client_secret" creds.clientSecret
    { url := service.tokenURL,
      body := data,
      authorization := none,
      contentType := "application/x-www-form-urlencoded" }
  else
    let data := data.set "client_id" creds.clientID
    let data := data.set "client_secret" creds.clientSecret
    { url := service.tokenURL,
      body := data,
      authorization := none,
      contentType := "application/x-www-form-urlencoded" }

/-- The keys present in a `url.Values`. -/
def Values.keys (q : Values) : List String :=
  List.map (fun p => p.1) q

/-- An abstract on-disk state: path to file contents; `os.Stat`
succeeds exactly on present paths. -/
def FileSystem : Type := String → Option String

/-- `caKeyFile` (certs package constant). -/
def caKeyFile : String := "applink-ca-key.pem"

/-- `caCertFile` (certs package constant). -/
def caCertFile : String := "applink-ca.pem"

/-- `GetCertsDir` (certs package): the home directory plus
`.applink/certs`; fails when the home directory is unavailable. -/
def GetCertsDir (home : Option String) : Except String String :=
  match home with
  | none => .error "failed to get home directory"
  | some h => .ok (h ++ "/.applink/certs")

/-- `CAExists` (certs package, src/internal/auth/oauth.go certs section
lines 270-283): `os.Stat` both the CA key file and the CA certificate
file; true iff both are present.  File contents are never inspected. -/
def CAExists (home : Option String) (fs : FileSystem) : Except String Bool :=
  match GetCertsDir home with
  | .error e => .error e
  | .ok certsDir =>
      .ok ((fs (certsDir ++ "/" ++ caKeyFile)).isSome &&
           (fs (certsDir ++ "/" ++ caCertFile)).isSome)

/-- Modelled from the spec: a well-formed PEM block begins with a
`-----BEGIN ` preamble line. -/
def pemWellFormed (content : String) : Bool :=
  content.startsWith "-----BEGIN "

/-- Modelled from the spec: `authorityExists` is true iff both the
private key and certificate files are present and well-formed. -/
def authorityExistsSpec (home : Option String) (fs : FileSystem) :
    Except String Bool :=
  match GetCertsDir home with
  | .error e => .error e
  | .ok certsDir =>
      let keyContent := fs (certsDir ++ "/" ++ caKeyFile)
      let certContent := fs (certsDir ++ "/" ++ caCertFile)
      .ok (keyContent.isSome && certContent.isSome &&
           pemWellFormed (keyContent.getD "") &&
           pemWellFormed (certContent.getD ""))

/-- An on-disk state where both CA files exist but hold malformed
(non-PEM) content. -/
def malformedCAFiles : FileSystem := fun path =>
  if path = "/home/user/.applink/certs/applink-ca-key.pem" then some "garbage"
  else if path = "/home/user/.applink/certs/applink-ca.pem" then some "garbage"
  else none

/-- C1: with no error parameter, any state differing from the expected
state yields `StateMismatch`, never `Code`. -/
theorem callback_state_mismatch_never_code
    (expectedState : String) (query : Values)
    (hNoErr : query.get "error" = "")
    (hState : query.get "state" ≠ expectedState) :
    handleCallback expectedState query = .StateMismatch ∧
      ∀ c, handleCallback expectedState query ≠ .Code c := by
  unfold handleCallback
  simp [hNoErr, hState]

/-- Witness for C1: a state differing from the expected `"S"` in one
character yields `StateMismatch` and not `Code`. -/
theorem callback_state_mismatch_never_code_witness :
    handleCallback "S" [("state", "T"), ("code", "abc123")] = .StateMismatch ∧
      ∀ c, handleCallback "S" [("state", "T"), ("code", "abc123")] ≠ .Code c :=
  callback_state_mismatch_never_code "S" [("state", "T"), ("code", "abc123")]
    (by decide) (by decide)

/-- C2: the handler checks `error`, then `state`, then `code`, in that
fixed order: a non-empty error parameter wins even when a code and a
matching state are present; otherwise a mismatching state yields
`StateMismatch`; otherwise an empty/absent code yields `MissingCode`;
otherwise `Code`. -/
theorem callback_branch_order (expectedState : String) (query : Values) :
    (query.get "error" ≠ "" →
      handleCallback expectedState query =
        .ProviderError (query.get "error") (query.get "error_description")) ∧
    (query.get "error" = "" → query.get "state" ≠ expectedState →
      handleCallback expectedState query = .StateMismatch) ∧
    (query.get "error" = "" → query.get "state" = expectedState →
      query.get "code" = "" →
      handleCallback expectedState query = .MissingCode) ∧
    (query.get "error" = "" → query.get "state" = expectedState →
      query.get "code" ≠ "" →
      handleCallback expectedState query = .Code (query.get "code")) := by
  refine ⟨?_, ?_, ?_, ?_⟩ <;> intros <;> unfold handleCallback <;>
    simp_all

/-- Witness for C2: a request carrying an error, a code and the matching
state takes the error branch. -/
theorem callback_branch_order_witness :
    handleCallback "S"
      [("error", "access_denied"), ("error_description", "user cancelled"),
       ("code", "abc123"), ("state", "S")] =
      .ProviderError "access_denied" "user cancelled" :=
  (callback_branch_order "S"
      [("error", "access_denied"), ("error_description", "user cancelled"),
       ("code", "abc123"), ("state", "S")]).1 (by decide)

/-- C3: over the lifetime of one flow's listener, at most one
connection-derived outcome is delivered to the orchestrator, and for a
non-empty request sequence the delivered outcome is exactly the first
request's outcome — later requests never change what is delivered. -/
theorem outcome_delivered_at_most_once (expectedState : String) (reqs : List Values) :
    (consumedEvents (requestEvents expectedState reqs)).length ≤ 1 ∧
    (∀ r rest, reqs = r :: rest →
      consumedEvents (requestEvents expectedState reqs) =
        [outcomeEvent (handleCallback expectedState r)] ∧
      waitForCallback (requestEvents expectedState reqs) =
        waitForCallback (requestEvents expectedState [r])) := by
  constructor
  · cases reqs <;> simp [requestEvents, consumedEvents]
  · rintro r rest rfl
    refine ⟨by simp [requestEvents, consumedEvents], ?_⟩
    show waitForCallback (outcomeEvent (handleCallback expectedState r) ::
        List.map (fun q => outcomeEvent (handleCallback expectedState q)) rest) =
      waitForCallback [outcomeEvent (handleCallback expectedState r)]
    generalize outcomeEvent (handleCallback expectedState r) = e
    cases e <;> rfl

/-- Witness for C3: with two valid-looking requests, only the first
outcome is consumed. -/
theorem outcome_delivered_at_most_once_witness :
    consumedEvents (requestEvents "S" [[("state", "S"), ("code", "one")],
        [("state", "S"), ("code", "two")]]) =
      [outcomeEvent (handleCallback "S" [("state", "S"), ("code", "one")])] ∧
    waitForCallback (requestEvents "S" [[("state", "S"), ("code", "one")],
        [("state", "S"), ("code", "two")]]) =
      waitForCallback (requestEvents "S" [[("state", "S"), ("code", "one")]]) :=
  ((outcome_delivered_at_most_once "S" [[("state", "S"), ("code", "one")],
      [("state", "S"), ("code", "two")]]).2
    [("state", "S"), ("code", "one")] [[("state", "S"), ("code", "two")]] rfl)

/-- C5: the wait of `DoOAuthFlow` is decided by exactly three event
sources — the first to fire determines the result (code exchange on a
code, the delivered error on an error, the timed-out error on the
timer) — and the server is shut down in all three cases. -/
theorem flow_wait_three_races_always_shutdown (events : List ChanEvent)
    (exchange : String → Except String Token) :
    (doOAuthFlowWait events exchange).serverShutdown = true ∧
    (∀ c, waitForCallback events = .gotCode c →
      (doOAuthFlowWait events exchange).result =
        match exchange c with
        | .ok t => .ok t
        | .error e => .error ("failed to exchange code: " ++ e)) ∧
    (∀ m, waitForCallback events = .gotErr m →
      (doOAuthFlowWait events exchange).result = .error m) ∧
    (waitForCallback events = .timedOut →
      (doOAuthFlowWait events exchange).result =
        .error "authentication timed out") := by
  refine ⟨?_, ?_, ?_, ?_⟩
  · unfold doOAuthFlowWait
    cases waitForCallback events <;> simp
  · intro c hc
    unfold doOAuthFlowWait
    rw [hc]
  · intro m hm
    unfold doOAuthFlowWait
    rw [hm]
  · intro ht
    unfold doOAuthFlowWait
    rw [ht]

/-- Witness for C5: with no event, the timer branch fires, the result is
the timed-out error, and the server is shut down. -/
theorem flow_wait_three_races_always_shutdown_witness :
    (doOAuthFlowWait [] (fun _ => .error "unused")).serverShutdown = true ∧
    (doOAuthFlowWait [] (fun _ => .error "unused")).result =
      .error "authentication timed out" :=
  ⟨(flow_wait_three_races_always_shutdown [] (fun _ => .error "unused")).1,
   (flow_wait_three_races_always_shutdown [] (fun _ => .error "unused")).2.2.2 rfl⟩

/-- Auxiliary: searching a key survives filtering out a different key. -/
theorem find?_filter_ne_key (l : List (String × String)) (k key : String)
    (h : k ≠ key) :
    List.find? (fun p => p.1 == k) (List.filter (fun p => p.1 ≠ key) l) =
      List.find? (fun p => p.1 == k) l := by
  induction l with
  | nil => rfl
  | cons a l ih =>
    by_cases ha : a.1 = key
    · rw [List.filter_cons_of_neg (by simp [ha]), ih,
        List.find?_cons_of_neg]
      simp [ha]
      exact fun e => h e.symm
    · rw [List.filter_cons_of_pos (by simp [ha])]
      cases hak : (a.1 == k) with
      | true =>
        have h1 : List.find? (fun p => p.1 == k)
            (a :: List.filter (fun p => decide (p.1 ≠ key)) l) = some a :=
          List.find?_cons_of_pos _ hak
        have h2 : List.find? (fun p => p.1 == k) (a :: l) = some a :=
          List.find?_cons_of_pos _ hak
        rw [h1, h2]
      | false =>
        have h1 : List.find? (fun p => p.1 == k)
            (a :: List.filter (fun p => decide (p.1 ≠ key)) l) =
            List.find? (fun p => p.1 == k)
              (List.filter (fun p => decide (p.1 ≠ key)) l) :=
          List.find?_cons_of_neg _ (by simp [hak])
        have h2 : List.find? (fun p => p.1 == k) (a :: l) =
            List.find? (fun p => p.1 == k) l :=
          List.find?_cons_of_neg _ (by simp [hak])
        rw [h1, h2, ih]

/-- Auxiliary: `Get` after `Set` of the same key. -/
theorem Values.get_set_same (q : Values) (key value : String) :
    Values.get (Values.set q key value) key = value := by
  unfold Values.get Values.set
  rw [List.find?_cons_of_pos]
  simp

/-- Auxiliary: `Get` after `Set` of a different key. -/
theorem Values.get_set_other (q : Values) (key value k : String)
    (h : (k == key) = false) :
    Values.get (Values.set q key value) k = Values.get q k := by
  have hne : k ≠ key := by simpa using h
  unfold Values.get Values.set
  rw [List.find?_cons_of_neg, find?_filter_ne_key q k key hne]
  simp
  exact fun e => hne e.symm

/-- C4: `parseTokenResponse` never returns a token with an empty access
token, and whenever the per-service extraction yields a token whose
access token is empty, the result is the no-access-token error, whose
message contains the raw response body verbatim. -/
theorem parse_token_rejects_empty_access_token (service : Service) (body : String)
    (rawResp : Option (List (String × Json))) (now : Rat) :
    (∀ t, parseTokenResponse service body rawResp now = .ok t →
      t.accessToken ≠ "") ∧
    (∀ m t, rawResp = some m → extractToken service m now = .ok t →
      t.accessToken = "" →
      parseTokenResponse service body rawResp now =
        .error ("no access token in response: " ++ body) ∧
      containsSub ("no access token in response: " ++ body) body) := by
  constructor
  · intro t ht
    unfold parseTokenResponse at ht
    split at ht
    · cases ht
    · split at ht
      · cases ht
      · split at ht
        · cases ht
        · rename_i hA
          cases ht
          exact hA
  · rintro m t rfl he hA
    refine ⟨?_, "no access token in response: ", "", by simp⟩
    simp only [parseTokenResponse, he]
    rw [if_pos hA]

/-- Witness for C4: an empty JSON object for a standard-OAuth service
extracts an empty token, and `parseTokenResponse` rejects it with an
error containing the raw body. -/
theorem parse_token_rejects_empty_access_token_witness :
    parseTokenResponse
        { id := "github", authURLBase := "", authURLQuery := [],
          tokenURL := "", scopes := [] } "\x7b\x7d" (some []) 0 =
      .error ("no access token in response: " ++ "\x7b\x7d") ∧
    containsSub ("no access token in response: " ++ "\x7b\x7d") "\x7b\x7d" :=
  (parse_token_rejects_empty_access_token
      { id := "github", authURLBase := "", authURLQuery := [],
        tokenURL := "", scopes := [] } "\x7b\x7d" (some []) 0).2
    [] {} rfl rfl rfl

/-- C6: `buildAuthURL`, invoked with the scheme mandated for the
provider (as `DoOAuthFlow` does), keeps the base authorization URL and
sets `client_id`, `redirect_uri` (loopback with that scheme),
`response_type=code` and `state`; when the service has scopes, slack
gets `user_scope` comma-joined and every other provider gets `scope`
space-joined. -/
theorem build_auth_url_query_params (service : Service) (clientID : String)
    (port : Nat) (state : String) :
    (buildAuthURL service clientID port state
        (serviceRequiresTLS service)).base = service.authURLBase ∧
    Values.get (buildAuthURL service clientID port state
        (serviceRequiresTLS service)).query "client_id" = clientID ∧
    Values.get (buildAuthURL service clientID port state
        (serviceRequiresTLS service)).query "redirect_uri" =
      (if serviceRequiresTLS service then "https" else "http") ++
        "://localhost:" ++ toString port ++ "/callback" ∧
    Values.get (buildAuthURL service clientID port state
        (serviceRequiresTLS service)).query "response_type" = "code" ∧
    Values.get (buildAuthURL service clientID port state
        (serviceRequiresTLS service)).query "state" = state ∧
    (service.scopes ≠ [] →
      (service.id = "slack" →
        Values.get (buildAuthURL service clientID port state
            (serviceRequiresTLS service)).query "user_scope" =
          String.intercalate "," service.scopes) ∧
      (service.id ≠ "slack" →
        Values.get (buildAuthURL service clientID port state
            (serviceRequiresTLS service)).query "scope" =
          String.intercalate " " service.scopes)) := by
  by_cases hs : service.scopes.length > 0
  · by_cases hid : service.id = "slack"
    · simp only [buildAuthURL]
      rw [if_pos hs, if_pos hid]
      refine ⟨by trivial, ?_, ?_, ?_, ?_, ?_⟩
      · simp [Values.get_set_same, Values.get_set_other]
      · simp [Values.get_set_same, Values.get_set_other]
      · simp [Values.get_set_same, Values.get_set_other]
      · simp [Values.get_set_same, Values.get_set_other]
      · intro _
        refine ⟨fun _ => ?_, fun hno => absurd hid hno⟩
        simp [Values.get_set_same]
    · simp only [buildAuthURL]
      rw [if_pos hs, if_neg hid]
      refine ⟨by trivial, ?_, ?_, ?_, ?_, ?_⟩
      · simp [Values.get_set_same, Values.get_set_other]
      · simp [Values.get_set_same, Values.get_set_other]
      · simp [Values.get_set_same, Values.get_set_other]
      · simp [Values.get_set_same, Values.get_set_other]
      · intro _
        refine ⟨fun hyes => absurd hyes hid, fun _ => ?_⟩
        simp [Values.get_set_same]
  · simp only [buildAuthURL]
    rw [if_neg hs]
    refine ⟨by trivial, ?_, ?_, ?_, ?_, ?_⟩
    · simp [Values.get_set_same, Values.get_set_other]
    · simp [Values.get_set_same, Values.get_set_other]
    · simp [Values.get_set_same, Values.get_set_other]
    · simp [Values.get_set_same, Values.get_set_other]
    · intro hne
      exact absurd (List.length_pos.mpr hne) hs

/-- Witness for C6: a slack-shaped service gets comma-joined
`user_scope` and the https loopback redirect. -/
theorem build_auth_url_query_params_witness :
    Values.get (buildAuthURL
        { id := "slack", authURLBase := "https://slack.com/oauth/v2/authorize",
          authURLQuery := [], tokenURL := "https://slack.com/api/oauth.v2.access",
          scopes := ["channels:read", "chat:write"] }
        "cid" 8888 "S"
        (serviceRequiresTLS
          { id := "slack", authURLBase := "https://slack.com/oauth/v2/authorize",
            authURLQuery := [], tokenURL := "https://slack.com/api/oauth.v2.access",
            scopes := ["channels:read", "chat:write"] })).query "user_scope" =
      String.intercalate "," ["channels:read", "chat:write"] :=
  (((build_auth_url_query_params
      { id := "slack", authURLBase := "https://slack.com/oauth/v2/authorize",
        authURLQuery := [], tokenURL := "https://slack.com/api/oauth.v2.access",
        scopes := ["channels:read", "chat:write"] }
      "cid" 8888 "S").2.2.2.2.2 (by decide)).1 rfl)

/-- Auxiliary: the explicit form of the token request for notion. -/
theorem buildTokenRequest_notion_eq (service : Service)
    (creds : ClientCredentials) (code : String) (port : Nat) (useTLS : Bool)
    (hid : service.id = "notion") :
    buildTokenRequest service creds code port useTLS =
      { url := service.tokenURL,
        body := Values.set (Values.set (Values.set []
            "grant_type" "authorization_code") "code" code) "redirect_uri"
          ((if useTLS then "https" else "http") ++ "://localhost:" ++
            toString port ++ "/callback"),
        authorization := some ("Basic " ++
          base64StdEncode (creds.clientID ++ ":" ++ creds.clientSecret)),
        contentType := "application/x-www-form-urlencoded" } := by
  simp only [buildTokenRequest]
  rw [if_pos hid]

/-- Auxiliary: the explicit form of the token request for every service
other than notion (the slack arm and the default arm coincide). -/
theorem buildTokenRequest_not_notion (service : Service)
    (creds : ClientCredentials) (code : String) (port : Nat) (useTLS : Bool)
    (hid : service.id ≠ "notion") :
    buildTokenRequest service creds code port useTLS =
      { url := service.tokenURL,
        body := Values.set (Values.set (Values.set (Values.set (Values.set []
            "grant_type" "authorization_code") "code" code) "redirect_uri"
          ((if useTLS then "https" else "http") ++ "://localhost:" ++
            toString port ++ "/callback")) "client_id"
            creds.clientID) "client_secret" creds.clientSecret,
        authorization := none,
        contentType := "application/x-www-form-urlencoded" } := by
  simp only [buildTokenRequest]
  rw [if_neg hid, ite_self]

/-- C7: `exchangeCode` places the client credentials per provider:
notion gets an HTTP Basic Authorization header over
`clientID:clientSecret` and no credentials in the form body; slack and
every other service get `client_id` and `client_secret` in the form
body and no Authorization header. -/
theorem exchange_credential_placement (service : Service)
    (creds : ClientCredentials) (code : String) (port : Nat) (useTLS : Bool) :
    (service.id = "notion" →
      (buildTokenRequest service creds code port useTLS).authorization =
        some ("Basic " ++
          base64StdEncode (creds.clientID ++ ":" ++ creds.clientSecret)) ∧
      "client_id" ∉
        Values.keys (buildTokenRequest service creds code port useTLS).body ∧
      "client_secret" ∉
        Values.keys (buildTokenRequest service creds code port useTLS).body) ∧
    (service.id ≠ "notion" →
      (buildTokenRequest service creds code port useTLS).authorization = none ∧
      Values.get (buildTokenRequest service creds code port useTLS).body
        "client_id" = creds.clientID ∧
      Values.get (buildTokenRequest service creds code port useTLS).body
        "client_secret" = creds.clientSecret) := by
  constructor
  · intro hid
    rw [buildTokenRequest_notion_eq service creds code port useTLS hid]
    refine ⟨rfl, ?_, ?_⟩ <;> simp [Values.set, Values.keys]
  · intro hid
    rw [buildTokenRequest_not_notion service creds code port useTLS hid]
    refine ⟨rfl, ?_, ?_⟩ <;>
      simp [Values.get_set_same, Values.get_set_other]

/-- Witness for C7: a notion-shaped service gets the Basic header over
its credentials and a form body free of them. -/
theorem exchange_credential_placement_witness :
    (buildTokenRequest
        { id := "notion", authURLBase := "", authURLQuery := [],
          tokenURL := "https://api.notion.com/v1/oauth/token", scopes := [] }
        { clientID := "cid", clientSecret := "sec" } "abc123" 8888 true).authorization =
      some ("Basic " ++ base64StdEncode ("cid" ++ ":" ++ "sec")) ∧
    "client_id" ∉ Values.keys (buildTokenRequest
        { id := "notion", authURLBase := "", authURLQuery := [],
          tokenURL := "https://api.notion.com/v1/oauth/token", scopes := [] }
        { clientID := "cid", clientSecret := "sec" } "abc123" 8888 true).body ∧
    "client_secret" ∉ Values.keys (buildTokenRequest
        { id := "notion", authURLBase := "", authURLQuery := [],
          tokenURL := "https://api.notion.com/v1/oauth/token", scopes := [] }
        { clientID := "cid", clientSecret := "sec" } "abc123" 8888 true).body :=
  (exchange_credential_placement
      { id := "notion", authURLBase := "", authURLQuery := [],
        tokenURL := "https://api.notion.com/v1/oauth/token", scopes := [] }
      { clientID := "cid", clientSecret := "sec" } "abc123" 8888 true).1 rfl

/-- C8: every non-200 token-exchange response yields an error (no
token) whose message contains the response body verbatim. -/
theorem exchange_non200_error_contains_body (service : Service) (status : Nat)
    (body : String) (rawResp : Option (List (String × Json))) (now : Rat)
    (h : status ≠ 200) :
    handleExchangeResponse service status body rawResp now =
      .error ("token exchange failed: " ++ body) ∧
    containsSub ("token exchange failed: " ++ body) body := by
  refine ⟨?_, "token exchange failed: ", "", by simp⟩
  unfold handleExchangeResponse
  rw [if_pos h]

/-- Witness for C8: a 400 response with the invalid_grant body yields an
exchange failure containing that body text. -/
theorem exchange_non200_error_contains_body_witness :
    handleExchangeResponse
        { id := "github", authURLBase := "", authURLQuery := [],
          tokenURL := "", scopes := [] } 400
        "\x7b\"error\":\"invalid_grant\"\x7d" none 0 =
      .error ("token exchange failed: " ++ "\x7b\"error\":\"invalid_grant\"\x7d") ∧
    containsSub ("token exchange failed: " ++ "\x7b\"error\":\"invalid_grant\"\x7d")
      "\x7b\"error\":\"invalid_grant\"\x7d" :=
  exchange_non200_error_contains_body
    { id := "github", authURLBase := "", authURLQuery := [],
      tokenURL := "", scopes := [] } 400
    "\x7b\"error\":\"invalid_grant\"\x7d" none 0 (by decide)

/-- C9 counterexample: an on-disk state in which both CA files are
present but neither holds a well-formed PEM block, yet `CAExists`
returns true (the claim demands false for such a state). -/
theorem caexists_true_on_malformed_files :
    CAExists (some "/home/user") malformedCAFiles = .ok true ∧
    malformedCAFiles "/home/user/.applink/certs/applink-ca-key.pem" =
      some "garbage" ∧
    malformedCAFiles "/home/user/.applink/certs/applink-ca.pem" =
      some "garbage" ∧
    pemWellFormed "garbage" = false ∧
    authorityExistsSpec (some "/home/user") malformedCAFiles = .ok false :=
  ⟨rfl, rfl, rfl, rfl, rfl⟩

/-- C9 amended: `CAExists` returns true iff both the CA key file and the
CA certificate file are present on disk; file contents are never
inspected. -/
theorem caexists_iff_both_files_present (h : String) (fs : FileSystem) :
    CAExists (some h) fs = .ok true ↔
      ((fs ((h ++ "/.applink/certs") ++ "/" ++ caKeyFile)).isSome = true ∧
       (fs ((h ++ "/.applink/certs") ++ "/" ++ caCertFile)).isSome = true) := by
  simp [CAExists, GetCertsDir, Bool.and_eq_true]

/-- C10 is refuted by the code: when the TLS callback server's
certificate generation fails, `startCallbackServer` returns nil after
pushing the error, the error branch of the `select` fires, and
`DoOAuthFlow` invokes `shutdownServer` with a nil server — on which
`server.Shutdown` dereferences nil. -/
theorem tls_cert_failure_shutdown_on_nil_server :
    tlsFlowShutdownServerArg (.error "entropy failure") [] = some none ∧
    (startCallbackServerTLS (.error "entropy failure")).server = none :=
  ⟨rfl, rfl⟩

end Applink
